import Mathlib

/-! TabContentsSSLHelper: client-certificate selection and add-certificate infobars

A shallow embedding of `chrome/browser/tab_contents/tab_contents_ssl_helper.cc`, followed by
`GoogleUpdateSettings::GetChromeChannel` of `chrome/installer/util/google_update_settings.cc`
and `ImageDownload::Downloaded` of `chrome/browser/ui/views/ash/balloon_view_ash.cc`.

* Pointers are modelled by `Option` (`none` is `NULL`); an `InfoBarDelegate*` is the
  index of the object in the list of objects created by `new`.
* `std::map<int, linked_ptr<SSLAddCertData> >` is a function from the key to the slot.
* `DCHECK` is fatal when the build has DCHECKs compiled in and does nothing otherwise;
  the build flavour is the field `dcheck_is_on` of the environment.
* Calls that leave the file (`CertificateSelected`, the certificate selector, the
  infobar helper) are recorded in call lists.
-/

namespace SSLHelper

/-! ## Data model -/

/-- Modelled from the spec: the `ContentSetting` enum of `chrome/common/content_settings.h`
(not among the sources); the spec lists the values ALLOW, BLOCK, ASK and DEFAULT. -/
inductive ContentSetting
  | CONTENT_SETTING_DEFAULT
  | CONTENT_SETTING_ALLOW
  | CONTENT_SETTING_BLOCK
  | CONTENT_SETTING_ASK
  deriving DecidableEq, Repr

/-- The content-settings category passed to `GetContentSetting`. -/
inductive ContentSettingsType
  | CONTENT_SETTINGS_TYPE_AUTO_SELECT_CERTIFICATE
  | CONTENT_SETTINGS_TYPE_OTHER
  deriving DecidableEq, Repr

/-- A `net::X509Certificate`, identified by a handle. -/
structure X509Certificate where
  handle : Nat
  deriving DecidableEq, Repr

/-- The fields of `net::SSLCertRequestInfo` that the helper reads. -/
structure SSLCertRequestInfo where
  host_and_port : String
  client_certs : List X509Certificate
  deriving DecidableEq, Repr

/-- A `SSLClientAuthHandler`: it carries the request and receives `CertificateSelected`. -/
structure SSLClientAuthHandler where
  cert_request_info : SSLCertRequestInfo
  deriving DecidableEq, Repr

/-- What the helper reads of a `GURL`: its text and `is_valid()`. -/
structure GURL where
  text : String
  is_valid : Bool
  deriving DecidableEq, Repr

/-- The collaborators of `SelectClientCertificate` that live outside the file. -/
structure Env where
  /-- Whether DCHECKs are compiled in (debug builds); otherwise `DCHECK` is a no-op. -/
  dcheck_is_on : Bool
  /-- The constructor `GURL(const std::string&)`. -/
  make_gurl : String → GURL
  /-- The call `HostContentSettingsMap::GetContentSetting(primary, secondary, type, resource)`. -/
  GetContentSetting : GURL → GURL → ContentSettingsType → String → ContentSetting

/-- The two DCHECKs of `SelectClientCertificate`, with what the first one streams. -/
inductive DCheckFailure
  | requesting_url_is_valid (streamed : String)
  | setting_NE_CONTENT_SETTING_DEFAULT
  deriving DecidableEq, Repr

/-- The calls `SelectClientCertificate` makes out of the helper. -/
inductive Call
  /-- The call `handler->CertificateSelected(cert)`. -/
  | CertificateSelected (cert : X509Certificate)
  /-- The call `browser::ShowSSLClientCertificateSelector(tab, handler->cert_request_info(),
  handler)`. -/
  | ShowSSLClientCertificateSelector (cert_request_info : SSLCertRequestInfo)
  deriving DecidableEq, Repr

/-- An `InfoBarDelegate*` that is not `NULL`: the index of the object among those created. -/
abbrev InfoBarDelegate := Nat

/-- The arguments of `l10n_util::GetStringFUTF16(id, IntToString16(-error_code),
ASCIIToUTF16(net::ErrorToString(error_code)))`. -/
structure Message where
  message_id : String
  number : Int
  error_string_of : Int
  deriving DecidableEq, Repr

/-- The infobar delegate objects the helper creates. -/
inductive InfoBarDelegateObject
  | SimpleAlertInfoBarDelegate (message : Message) (auto_expire : Bool)
  | SSLCertAddedInfoBarDelegate (cert : X509Certificate)
  deriving DecidableEq, Repr

/-- The class `SSLAddCertData`: `infobar_delegate_` is the infobar it tracks (`none` is `NULL`).
Its `tab_contents_` is the one tab of the model and its `registrar_` registration for the two
infobar notifications of that tab is modelled by `Notify`. -/
structure SSLAddCertData where
  infobar_delegate_ : Option InfoBarDelegate
  deriving DecidableEq, Repr

/-- The calls made on the tab's `InfoBarTabHelper`. -/
inductive InfoBarCall
  | AddInfoBar (delegate : InfoBarDelegate)
  | ReplaceInfoBar (old_delegate new_delegate : InfoBarDelegate)
  deriving DecidableEq, Repr

/-- The notifications `SSLAddCertData` registers for, with the `first` member of the details
(and the `second` of a replacement). -/
inductive Notification
  | NOTIFICATION_TAB_CONTENTS_INFOBAR_REMOVED (first : InfoBarDelegate)
  | NOTIFICATION_TAB_CONTENTS_INFOBAR_REPLACED (first second : InfoBarDelegate)
  deriving DecidableEq, Repr

/-- A `SSLAddCertHandler`: the request id and the certificate to add. -/
structure SSLAddCertHandler where
  network_request_id : Int
  cert : X509Certificate
  deriving DecidableEq, Repr

/-- The helper together with the tab it is attached to.
`objects` are the infobar delegates created so far by `new`, `infobars_` the delegates the
tab displays, `infobar_calls` the calls received by the tab's infobar helper, and
`request_id_to_add_cert_data_` the helper's map: `none` is a missing key, `some none` a slot
holding a null `linked_ptr`. -/
structure State where
  objects : List InfoBarDelegateObject
  infobars_ : List InfoBarDelegate
  infobar_calls : List InfoBarCall
  request_id_to_add_cert_data_ : Int → Option (Option SSLAddCertData)

/-! ## SelectClientCertificate -/

/-- The macro `DCHECK(condition) << streamed`: fatal when DCHECKs are compiled in and the
condition is false, and nothing otherwise. -/
def DCHECK (env : Env) (condition : Bool) (failure : DCheckFailure) :
    Except DCheckFailure Unit :=
  if env.dcheck_is_on && !condition then Except.error failure else Except.ok ()

/-- The method `TabContentsSSLHelper::ShowClientCertificateRequestDialog`. -/
def ShowClientCertificateRequestDialog (s : State) (handler : SSLClientAuthHandler) :
    State × List Call :=
  (s, [Call.ShowSSLClientCertificateSelector handler.cert_request_info])

/-- The body of `SelectClientCertificate` from the local `cert_matches_filter` on. -/
def SelectClientCertificateWithFilter (env : Env) (s : State)
    (handler : SSLClientAuthHandler) (cert_matches_filter : Bool) :
    Except DCheckFailure (State × List Call) :=
  let cert_request_info := handler.cert_request_info
  let requesting_url := env.make_gurl ("https://" ++ cert_request_info.host_and_port)
  match DCHECK env requesting_url.is_valid
      (DCheckFailure.requesting_url_is_valid
        ("Invalid URL string: https://" ++ cert_request_info.host_and_port)) with
  | Except.error failure => Except.error failure
  | Except.ok () =>
    let setting := env.GetContentSetting requesting_url requesting_url
      ContentSettingsType.CONTENT_SETTINGS_TYPE_AUTO_SELECT_CERTIFICATE ""
    match DCHECK env (decide (setting ≠ ContentSetting.CONTENT_SETTING_DEFAULT))
        DCheckFailure.setting_NE_CONTENT_SETTING_DEFAULT with
    | Except.error failure => Except.error failure
    | Except.ok () =>
      if h : setting = ContentSetting.CONTENT_SETTING_ALLOW ∧
          cert_request_info.client_certs.length = 1 ∧
          cert_matches_filter = true then
        let cert := cert_request_info.client_certs.get ⟨0, by omega⟩
        Except.ok (s, [Call.CertificateSelected cert])
      else
        Except.ok (ShowClientCertificateRequestDialog s handler)

/-- The method `TabContentsSSLHelper::SelectClientCertificate`; the filter is the constant
`true` of the source. -/
def SelectClientCertificate (env : Env) (s : State) (handler : SSLClientAuthHandler) :
    Except DCheckFailure (State × List Call) :=
  SelectClientCertificateWithFilter env s handler true

/-- The URL that `SelectClientCertificate` builds for the request. -/
def requesting_url (env : Env) (handler : SSLClientAuthHandler) : GURL :=
  env.make_gurl ("https://" ++ handler.cert_request_info.host_and_port)

/-- The setting that `SelectClientCertificate` looks up for the request. -/
def resolved_setting (env : Env) (handler : SSLClientAuthHandler) : ContentSetting :=
  env.GetContentSetting (requesting_url env handler) (requesting_url env handler)
    ContentSettingsType.CONTENT_SETTINGS_TYPE_AUTO_SELECT_CERTIFICATE ""

/-- Whether the list of calls contains a `CertificateSelected`. -/
def Call.isCertificateSelected : Call → Bool
  | Call.CertificateSelected _ => true
  | Call.ShowSSLClientCertificateSelector _ => false

/-- Whether the call shows the interactive selector. -/
def Call.isShowSelector : Call → Bool
  | Call.CertificateSelected _ => false
  | Call.ShowSSLClientCertificateSelector _ => true

/-! ## The add-certificate infobars -/

/-- A `SSLAddCertData*` that is not `NULL`: the object owned by the `linked_ptr` stored in
the map under this key. -/
abbrev SSLAddCertDataPtr := Int

/-- The expression `new T(...)` for an infobar delegate: the object is added to those
created so far and its pointer is returned. -/
def new_InfoBarDelegate (s : State) (object : InfoBarDelegateObject) :
    State × InfoBarDelegate :=
  ({ s with objects := s.objects ++ [object] }, s.objects.length)

/-- The method `SSLAddCertData::Observe`: the tracked infobar is forgotten when it is the
`first` member of the details (the removed delegate, or the old one of a replacement). -/
def SSLAddCertData.Observe (self : SSLAddCertData) (notification : Notification) :
    SSLAddCertData :=
  if self.infobar_delegate_ =
      some (match notification with
        | Notification.NOTIFICATION_TAB_CONTENTS_INFOBAR_REMOVED first => first
        | Notification.NOTIFICATION_TAB_CONTENTS_INFOBAR_REPLACED first _ => first) then
    { self with infobar_delegate_ := none }
  else
    self

/-- Delivery of an infobar notification of the tab: every `SSLAddCertData` of the map has
registered for it in its constructor, so each of them observes it. -/
def Notify (s : State) (notification : Notification) : State :=
  { s with
    request_id_to_add_cert_data_ := fun id =>
      Option.map (Option.map (fun data => data.Observe notification))
        (s.request_id_to_add_cert_data_ id) }

/-- Modelled from the spec: `InfoBarTabHelper::AddInfoBar` (infobar_tab_helper.cc is not among
the sources), the dispatcher's `Show`: the delegate is displayed after the others. -/
def AddInfoBar (s : State) (delegate : InfoBarDelegate) : State :=
  { s with
    infobars_ := s.infobars_ ++ [delegate]
    infobar_calls := s.infobar_calls ++ [InfoBarCall.AddInfoBar delegate] }

/-- The displayed list with the first occurrence of `old_delegate` replaced by
`new_delegate`; `new_delegate` is shown last when `old_delegate` is not displayed. -/
def replace_delegate (old_delegate new_delegate : InfoBarDelegate) :
    List InfoBarDelegate → List InfoBarDelegate
  | [] => [new_delegate]
  | d :: ds =>
    if d = old_delegate then new_delegate :: ds
    else d :: replace_delegate old_delegate new_delegate ds

/-- Modelled from the spec: `InfoBarTabHelper::ReplaceInfoBar` (infobar_tab_helper.cc is not
among the sources): the old notification is dismissed and the new one shown in its place, and
the tab sends `NOTIFICATION_TAB_CONTENTS_INFOBAR_REPLACED` with the pair (old, new). -/
def ReplaceInfoBar (s : State) (old_delegate new_delegate : InfoBarDelegate) : State :=
  Notify
    { s with
      infobars_ := replace_delegate old_delegate new_delegate s.infobars_
      infobar_calls :=
        s.infobar_calls ++ [InfoBarCall.ReplaceInfoBar old_delegate new_delegate] }
    (Notification.NOTIFICATION_TAB_CONTENTS_INFOBAR_REPLACED old_delegate new_delegate)

/-- The method `SSLAddCertData::ShowInfoBar` on the object `self` points to. The method is
only called on the pointer `GetAddCertData` returns, which is never null; on a key without an
object the model does nothing. -/
def ShowInfoBar (s : State) (self : SSLAddCertDataPtr) (delegate : InfoBarDelegate) : State :=
  match s.request_id_to_add_cert_data_ self with
  | some (some data) =>
    let s1 :=
      match data.infobar_delegate_ with
      | some infobar_delegate_ => ReplaceInfoBar s infobar_delegate_ delegate
      | none => AddInfoBar s delegate
    { s1 with
      request_id_to_add_cert_data_ := fun id =>
        if id = self then
          Option.map
            (Option.map (fun data1 => { data1 with infobar_delegate_ := some delegate }))
            (s1.request_id_to_add_cert_data_ id)
        else s1.request_id_to_add_cert_data_ id }
  | _ => s

/-- The method `SSLAddCertData::ShowErrorInfoBar`. -/
def ShowErrorInfoBar (s : State) (self : SSLAddCertDataPtr) (message : Message) : State :=
  let (s1, delegate) :=
    new_InfoBarDelegate s (InfoBarDelegateObject.SimpleAlertInfoBarDelegate message true)
  ShowInfoBar s1 self delegate

/-- The constructor `SSLAddCertData::SSLAddCertData`: no infobar is tracked. -/
def SSLAddCertData.new : SSLAddCertData :=
  { infobar_delegate_ := none }

/-- The method `TabContentsSSLHelper::GetAddCertData`: `operator[]` finds the slot or creates
one holding a null `linked_ptr`, which is then filled if it is null. -/
def GetAddCertData (s : State) (handler : SSLAddCertHandler) : State × SSLAddCertDataPtr :=
  let key := handler.network_request_id
  let ptr_ref : Option SSLAddCertData :=
    match s.request_id_to_add_cert_data_ key with
    | some slot => slot
    | none => none
  let filled : SSLAddCertData :=
    match ptr_ref with
    | some data => data
    | none => SSLAddCertData.new
  ({ s with
    request_id_to_add_cert_data_ := fun id =>
      if id = key then some (some filled) else s.request_id_to_add_cert_data_ id }, key)

/-- The method `TabContentsSSLHelper::OnVerifyClientCertificateError`. -/
def OnVerifyClientCertificateError (s : State) (handler : SSLAddCertHandler)
    (error_code : Int) : State :=
  let (s1, add_cert_data) := GetAddCertData s handler
  ShowErrorInfoBar s1 add_cert_data
    { message_id := "IDS_ADD_CERT_ERR_INVALID_CERT", number := -error_code,
      error_string_of := error_code }

/-- The method `TabContentsSSLHelper::OnAddClientCertificateSuccess`. -/
def OnAddClientCertificateSuccess (s : State) (handler : SSLAddCertHandler) : State :=
  let (s1, add_cert_data) := GetAddCertData s handler
  let (s2, delegate) :=
    new_InfoBarDelegate s1 (InfoBarDelegateObject.SSLCertAddedInfoBarDelegate handler.cert)
  ShowInfoBar s2 add_cert_data delegate

/-- The method `TabContentsSSLHelper::OnAddClientCertificateError`. -/
def OnAddClientCertificateError (s : State) (handler : SSLAddCertHandler)
    (error_code : Int) : State :=
  let (s1, add_cert_data) := GetAddCertData s handler
  ShowErrorInfoBar s1 add_cert_data
    { message_id := "IDS_ADD_CERT_ERR_FAILED", number := -error_code,
      error_string_of := error_code }

/-- The method `TabContentsSSLHelper::OnAddClientCertificateFinished`: `erase` of the key. -/
def OnAddClientCertificateFinished (s : State) (handler : SSLAddCertHandler) : State :=
  { s with
    request_id_to_add_cert_data_ := fun id =>
      if id = handler.network_request_id then none else s.request_id_to_add_cert_data_ id }

/-! ## Event sequences -/

/-- The add-certificate events the helper receives. -/
inductive Event
  | OnVerifyClientCertificateError (handler : SSLAddCertHandler) (error_code : Int)
  | OnAddClientCertificateSuccess (handler : SSLAddCertHandler)
  | OnAddClientCertificateError (handler : SSLAddCertHandler) (error_code : Int)
  | OnAddClientCertificateFinished (handler : SSLAddCertHandler)
  deriving DecidableEq, Repr

/-- The request id of the handler an event is delivered for. -/
def Event.request_id : Event → Int
  | Event.OnVerifyClientCertificateError handler _ => handler.network_request_id
  | Event.OnAddClientCertificateSuccess handler => handler.network_request_id
  | Event.OnAddClientCertificateError handler _ => handler.network_request_id
  | Event.OnAddClientCertificateFinished handler => handler.network_request_id

/-- Whether the event shows a notification (a verify error, add success or add error). -/
def Event.is_notification : Event → Bool
  | Event.OnAddClientCertificateFinished _ => false
  | _ => true

/-- The helper's reaction to one event. -/
def step (s : State) : Event → State
  | Event.OnVerifyClientCertificateError handler error_code =>
    OnVerifyClientCertificateError s handler error_code
  | Event.OnAddClientCertificateSuccess handler => OnAddClientCertificateSuccess s handler
  | Event.OnAddClientCertificateError handler error_code =>
    OnAddClientCertificateError s handler error_code
  | Event.OnAddClientCertificateFinished handler => OnAddClientCertificateFinished s handler

/-- The helper's reaction to a sequence of events, in order. -/
def run (s : State) (events : List Event) : State :=
  events.foldl step s

/-- A new helper on a tab without infobars: the map is empty. -/
def initial : State :=
  { objects := [], infobars_ := [], infobar_calls := [],
    request_id_to_add_cert_data_ := fun _ => none }

/-- The latest event of the sequence that is for the request id, if any. -/
def last_event_for (id : Int) (events : List Event) : Option Event :=
  (events.reverse.find? (fun e => decide (e.request_id = id)))

/-- Whether the map has an entry under the key. -/
def has_entry (s : State) (id : Int) : Bool :=
  (s.request_id_to_add_cert_data_ id).isSome

/-- The infobar tracked by the state stored under the key, if there is one. -/
def tracked (s : State) (id : Int) : Option InfoBarDelegate :=
  match s.request_id_to_add_cert_data_ id with
  | some (some data) => data.infobar_delegate_
  | _ => none

/-- Consistency of the helper with its tab: no infobar is displayed twice, every displayed
infobar is an object that has been created, and every tracked infobar is displayed. -/
def WF (s : State) : Prop :=
  s.infobars_.Nodup ∧
  (∀ d ∈ s.infobars_, d < s.objects.length) ∧
  (∀ id d, tracked s id = some d → d ∈ s.infobars_)

/-- What the three notification handlers have in common: the state for the request is found
or created, the delegate object is created, and it is shown. -/
def show_notification (s : State) (handler : SSLAddCertHandler)
    (object : InfoBarDelegateObject) : State :=
  let (s1, add_cert_data) := GetAddCertData s handler
  let (s2, delegate) := new_InfoBarDelegate s1 object
  ShowInfoBar s2 add_cert_data delegate

/-- The delegate object a notification event creates. -/
def Event.object : Event → Option InfoBarDelegateObject
  | Event.OnVerifyClientCertificateError _ error_code =>
    some (InfoBarDelegateObject.SimpleAlertInfoBarDelegate
      { message_id := "IDS_ADD_CERT_ERR_INVALID_CERT", number := -error_code,
        error_string_of := error_code } true)
  | Event.OnAddClientCertificateSuccess handler =>
    some (InfoBarDelegateObject.SSLCertAddedInfoBarDelegate handler.cert)
  | Event.OnAddClientCertificateError _ error_code =>
    some (InfoBarDelegateObject.SimpleAlertInfoBarDelegate
      { message_id := "IDS_ADD_CERT_ERR_FAILED", number := -error_code,
        error_string_of := error_code } true)
  | Event.OnAddClientCertificateFinished _ => none

/-- The handler an event is delivered for. -/
def Event.handler : Event → SSLAddCertHandler
  | Event.OnVerifyClientCertificateError handler _ => handler
  | Event.OnAddClientCertificateSuccess handler => handler
  | Event.OnAddClientCertificateError handler _ => handler
  | Event.OnAddClientCertificateFinished handler => handler

/-- Whether no assertion of `SelectClientCertificate` aborts the call for the request: DCHECKs
are compiled out, or the URL is valid and the setting looked up is not DEFAULT. -/
def passes_assertions (env : Env) (handler : SSLClientAuthHandler) : Bool :=
  !env.dcheck_is_on ||
    ((requesting_url env handler).is_valid &&
      decide (resolved_setting env handler ≠ ContentSetting.CONTENT_SETTING_DEFAULT))

/-! ## Concrete environments and requests used in the examples -/

/-- A `GURL` constructor for the examples: the text is kept, and the URL is valid when
something follows the scheme. -/
def example_gurl (text : String) : GURL :=
  { text := text, is_valid := decide ("https://".length < text.length) }

/-- A build with DCHECKs compiled in whose settings map answers `setting` everywhere. -/
def debug_env (setting : ContentSetting) : Env :=
  { dcheck_is_on := true, make_gurl := example_gurl,
    GetContentSetting := fun _ _ _ _ => setting }

/-- A build with DCHECKs compiled out whose settings map answers `setting` everywhere. -/
def release_env (setting : ContentSetting) : Env :=
  { dcheck_is_on := false, make_gurl := example_gurl,
    GetContentSetting := fun _ _ _ _ => setting }

/-- The add-certificate handler of request 1. -/
def handler_one : SSLAddCertHandler :=
  { network_request_id := 1, cert := { handle := 0 } }

/-- A request is finished and a success is then reported for the same request id. -/
def finished_then_success : List Event :=
  [Event.OnAddClientCertificateFinished handler_one,
    Event.OnAddClientCertificateSuccess handler_one]

/-- A request from `host_and_port` with the given candidates. -/
def request_from (host_and_port : String) (client_certs : List X509Certificate) :
    SSLClientAuthHandler :=
  { cert_request_info := { host_and_port := host_and_port, client_certs := client_certs } }

/-! ## Infobars removed or replaced by the tab -/

/-- The `first` member of the details of a notification: the removed delegate, or the old
one of a replacement. -/
def Notification.first : Notification → InfoBarDelegate
  | Notification.NOTIFICATION_TAB_CONTENTS_INFOBAR_REMOVED first => first
  | Notification.NOTIFICATION_TAB_CONTENTS_INFOBAR_REPLACED first _ => first

/-- Modelled from the spec: the tab removes an infobar (the dispatcher's `Dismiss`, as when the
user closes it; infobar_tab_helper.cc is not among the sources): the infobar is no longer
displayed and the tab sends `NOTIFICATION_TAB_CONTENTS_INFOBAR_REMOVED` with it. -/
def RemoveInfoBar (s : State) (delegate : InfoBarDelegate) : State :=
  Notify { s with infobars_ := s.infobars_.erase delegate }
    (Notification.NOTIFICATION_TAB_CONTENTS_INFOBAR_REMOVED delegate)

/-- What happens on the tab: an event of the helper (the three notification handlers call
`ShowInfoBar`), or an infobar added, removed or replaced by the tab or another of its
clients, who creates the delegate object it shows. -/
inductive TabEvent
  | helper (event : Event)
  | InfoBarAdded (object : InfoBarDelegateObject)
  | InfoBarRemoved (delegate : InfoBarDelegate)
  | InfoBarReplaced (old_delegate : InfoBarDelegate) (object : InfoBarDelegateObject)
  deriving DecidableEq, Repr

/-- The effect of one event of the tab. -/
def tab_step (s : State) : TabEvent → State
  | TabEvent.helper event => step s event
  | TabEvent.InfoBarAdded object =>
    let (s1, delegate) := new_InfoBarDelegate s object
    AddInfoBar s1 delegate
  | TabEvent.InfoBarRemoved delegate => RemoveInfoBar s delegate
  | TabEvent.InfoBarReplaced old_delegate object =>
    let (s1, delegate) := new_InfoBarDelegate s object
    ReplaceInfoBar s1 old_delegate delegate

/-- The effect of a sequence of events of the tab, in order. -/
def tab_run (s : State) (events : List TabEvent) : State :=
  events.foldl tab_step s

/-- No infobar is tracked by the states of two request ids. -/
def distinct_tracked (s : State) : Prop :=
  ∀ a b d, tracked s a = some d → tracked s b = some d → a = b

/-- The add-certificate handler of request 2. -/
def handler_two : SSLAddCertHandler :=
  { network_request_id := 2, cert := { handle := 0 } }

end SSLHelper

/-! ## GoogleUpdateSettings: the update channel -/

namespace GoogleUpdateSettings

/-- The registry hives the settings are read from. -/
inductive HKEY
  | HKEY_CURRENT_USER
  | HKEY_LOCAL_MACHINE
  deriving DecidableEq, Repr

/-- What lies outside google_update_settings.cc: the string values of the registry, by hive,
key path and value name (`none` when `RegKey::ReadValue` fails), the state key of the
distribution and the name `google_update::kRegApField` of the 'ap' field. -/
structure Env where
  ReadValue : HKEY → String → String → Option String
  GetStateKey : String
  kRegApField : String

/-- The function `ReadGoogleUpdateStrKey`: the value under the current user's key, else the
one under the local machine's key; `none` is the result `false`, with `value` not written. -/
def ReadGoogleUpdateStrKey (env : Env) (name : String) : Option String :=
  let reg_path := env.GetStateKey
  match env.ReadValue HKEY.HKEY_CURRENT_USER reg_path name with
  | none => env.ReadValue HKEY.HKEY_LOCAL_MACHINE reg_path name
  | some value => some value

/-- Whether the characters of `needle` are the first characters of `text`. -/
def starts_with : List Char → List Char → Bool
  | _, [] => true
  | [], _ :: _ => false
  | c :: cs, n :: ns => c == n && starts_with cs ns

/-- The first position from `pos` on at which `needle` occurs in the rest `text` of the
string. -/
def find_from (needle : List Char) : List Char → Nat → Option Nat
  | [], pos => if needle.isEmpty then some pos else none
  | c :: cs, pos =>
    if starts_with (c :: cs) needle then some pos else find_from needle cs (pos + 1)

/-- The method `std::wstring::find(needle)`: the first position at which `needle` occurs;
`none` is `npos`. -/
def find (text needle : String) : Option Nat :=
  find_from needle.data text.data 0

/-- The method `GoogleUpdateSettings::GetChromeChannel`: the result and what is written to
`*channel`. -/
def GetChromeChannel (env : Env) : Bool × String :=
  match ReadGoogleUpdateStrKey env env.kRegApField with
  | none => (false, "unknown")
  | some update_branch =>
    if find update_branch "-beta" ≠ none then (true, "beta")
    else if find update_branch "-dev" ≠ none then (true, "dev")
    else if update_branch.isEmpty then (true, "")
    else (true, "unknown")

/-- A registry in which the current user's state key holds `ap` in the 'ap' field. -/
def env_with_ap (ap : String) : Env :=
  { ReadValue := fun hive _ name =>
      if hive = HKEY.HKEY_CURRENT_USER ∧ name = "ap" then some ap else none
    GetStateKey := "ClientState"
    kRegApField := "ap" }

end GoogleUpdateSettings

/-! ## BalloonViewAsh: the image download of a notification -/

namespace BalloonViewAsh

/-- A `SkBitmap`, identified by a handle. -/
structure SkBitmap where
  handle : Nat
  deriving DecidableEq, Repr

/-- A `gfx::ImageSkia` made from a bitmap by `gfx::ImageSkia(const SkBitmap&)`. -/
structure ImageSkia where
  bitmap : SkBitmap
  deriving DecidableEq, Repr

set_option linter.unusedVariables false

/-- The method `BalloonViewAsh::ImageDownload::Downloaded`: the result is the list of the
images `callback_` is run with, in order. -/
def ImageDownload.Downloaded (download_id : Int) (image_url : String) (errored : Bool)
    (requested_size : Int) (bitmaps : List SkBitmap) : List ImageSkia :=
  match bitmaps with
  | [] => []
  | bitmap :: _ =>
    let image : ImageSkia := { bitmap := bitmap }
    [image]

end BalloonViewAsh

namespace SSLHelper

/-! ## Lemmas on SelectClientCertificate -/

/-- When neither assertion aborts, the call returns what the decision rule gives. -/
theorem select_of_passes (env : Env) (s : State) (handler : SSLClientAuthHandler)
    (cert_matches_filter : Bool) (hpass : passes_assertions env handler = true) :
    SelectClientCertificateWithFilter env s handler cert_matches_filter =
      if h : resolved_setting env handler = ContentSetting.CONTENT_SETTING_ALLOW ∧
          handler.cert_request_info.client_certs.length = 1 ∧
          cert_matches_filter = true then
        Except.ok (s, [Call.CertificateSelected
          (handler.cert_request_info.client_certs.get ⟨0, by omega⟩)])
      else
        Except.ok (s, [Call.ShowSSLClientCertificateSelector handler.cert_request_info]) := by
  unfold passes_assertions at hpass
  unfold SelectClientCertificateWithFilter DCHECK ShowClientCertificateRequestDialog
  unfold resolved_setting requesting_url at *
  cases hd : env.dcheck_is_on
  · simp
  · simp [hd] at hpass
    simp [hpass.1, hpass.2]

/-- When the URL assertion does not abort and the setting is ALLOW, neither assertion
aborts. -/
theorem passes_of_allow (env : Env) (handler : SSLClientAuthHandler)
    (hurl : env.dcheck_is_on = true → (requesting_url env handler).is_valid = true)
    (hset : resolved_setting env handler = ContentSetting.CONTENT_SETTING_ALLOW) :
    passes_assertions env handler = true := by
  unfold passes_assertions
  cases hd : env.dcheck_is_on
  · simp
  · simp [hurl hd, hset]

/-! ## Claims on SelectClientCertificate -/

/-- C1: for every request whose setting lookup is reached (the URL assertion does not abort)
and resolves to ALLOW, and whose candidate list has exactly one certificate,
`SelectClientCertificate` makes exactly one call, `CertificateSelected` with `client_certs[0]`,
and so does not show the interactive selector. -/
theorem C1_allow_single_candidate_is_selected (env : Env) (s : State)
    (handler : SSLClientAuthHandler)
    (hurl : env.dcheck_is_on = true → (requesting_url env handler).is_valid = true)
    (hset : resolved_setting env handler = ContentSetting.CONTENT_SETTING_ALLOW)
    (hone : handler.cert_request_info.client_certs.length = 1) :
    SelectClientCertificate env s handler =
      Except.ok (s, [Call.CertificateSelected
        (handler.cert_request_info.client_certs.get ⟨0, by omega⟩)]) := by
  unfold SelectClientCertificate
  rw [select_of_passes env s handler true (passes_of_allow env handler hurl hset)]
  simp [hset, hone]

/-- C1 at `example.com:443`, ALLOW, one candidate, in a build with DCHECKs. -/
theorem C1_allow_single_candidate_is_selected_witness :
    SelectClientCertificate (debug_env ContentSetting.CONTENT_SETTING_ALLOW) initial
        (request_from "example.com:443" [{ handle := 7 }]) =
      Except.ok (initial, [Call.CertificateSelected { handle := 7 }]) :=
  C1_allow_single_candidate_is_selected (debug_env ContentSetting.CONTENT_SETTING_ALLOW)
    initial (request_from "example.com:443" [{ handle := 7 }]) (fun _ => by decide) rfl rfl

/-- C2 fails as stated: in a build with DCHECKs, a request with no candidate whose setting
resolves to DEFAULT aborts on the assertion and the selector is not shown. -/
theorem C2_counterexample :
    (request_from "example.com:443" []).cert_request_info.client_certs.length = 0 ∧
    SelectClientCertificate (debug_env ContentSetting.CONTENT_SETTING_DEFAULT) initial
        (request_from "example.com:443" []) =
      Except.error DCheckFailure.setting_NE_CONTENT_SETTING_DEFAULT :=
  ⟨rfl, rfl⟩

/-- C2 (amended): for every request on which neither assertion aborts and whose setting is
BLOCK or ASK, or whose candidate list has zero or at least two certificates,
`SelectClientCertificate` makes exactly one call, the interactive selector with the request's
candidate list, and so never calls `CertificateSelected`; this holds whatever the value of the
matching filter, in particular for the `true` of the source. -/
theorem C2_otherwise_selector_is_shown (env : Env) (s : State)
    (handler : SSLClientAuthHandler) (cert_matches_filter : Bool)
    (hpass : passes_assertions env handler = true)
    (hcase : resolved_setting env handler = ContentSetting.CONTENT_SETTING_BLOCK ∨
      resolved_setting env handler = ContentSetting.CONTENT_SETTING_ASK ∨
      handler.cert_request_info.client_certs.length ≠ 1) :
    SelectClientCertificateWithFilter env s handler cert_matches_filter =
        Except.ok (s, [Call.ShowSSLClientCertificateSelector handler.cert_request_info]) ∧
    SelectClientCertificate env s handler =
        Except.ok (s, [Call.ShowSSLClientCertificateSelector handler.cert_request_info]) := by
  have key : ∀ filter : Bool, SelectClientCertificateWithFilter env s handler filter =
      Except.ok (s, [Call.ShowSSLClientCertificateSelector handler.cert_request_info]) := by
    intro filter
    rw [select_of_passes env s handler filter hpass]
    rcases hcase with h | h | h
    · simp [h]
    · simp [h]
    · simp [h]
  exact ⟨key cert_matches_filter, key true⟩

/-- C2 (amended) at `example.com:443`, ASK, one candidate, in a build with DCHECKs. -/
theorem C2_otherwise_selector_is_shown_witness :
    SelectClientCertificateWithFilter (debug_env ContentSetting.CONTENT_SETTING_ASK) initial
        (request_from "example.com:443" [{ handle := 7 }]) false =
      Except.ok (initial, [Call.ShowSSLClientCertificateSelector
        (request_from "example.com:443" [{ handle := 7 }]).cert_request_info]) ∧
    SelectClientCertificate (debug_env ContentSetting.CONTENT_SETTING_ASK) initial
        (request_from "example.com:443" [{ handle := 7 }]) =
      Except.ok (initial, [Call.ShowSSLClientCertificateSelector
        (request_from "example.com:443" [{ handle := 7 }]).cert_request_info]) :=
  C2_otherwise_selector_is_shown (debug_env ContentSetting.CONTENT_SETTING_ASK) initial
    (request_from "example.com:443" [{ handle := 7 }]) false (by decide)
    (Or.inr (Or.inl rfl))

/-- C3: for every request that `SelectClientCertificate` evaluates (neither assertion aborts
the call), the call returns, the calls it made are one in all, counting `CertificateSelected`
and the interactive selector together, and the helper, with its map from request ids to
notification states, is as before. -/
theorem C3_exactly_one_callback (env : Env) (s : State) (handler : SSLClientAuthHandler)
    (hpass : passes_assertions env handler = true) :
    ∃ calls : List Call,
      SelectClientCertificate env s handler = Except.ok (s, calls) ∧
      calls.length = 1 ∧
      (calls.filter Call.isCertificateSelected).length +
        (calls.filter Call.isShowSelector).length = 1 := by
  unfold SelectClientCertificate
  rw [select_of_passes env s handler true hpass]
  split
  · exact ⟨_, rfl, rfl, rfl⟩
  · exact ⟨_, rfl, rfl, rfl⟩

/-- C3 at `example.com:443`, BLOCK, two candidates, in a build with DCHECKs. -/
theorem C3_exactly_one_callback_witness :
    ∃ calls : List Call,
      SelectClientCertificate (debug_env ContentSetting.CONTENT_SETTING_BLOCK) initial
        (request_from "example.com:443" [{ handle := 1 }, { handle := 2 }]) =
        Except.ok (initial, calls) ∧
      calls.length = 1 ∧
      (calls.filter Call.isCertificateSelected).length +
        (calls.filter Call.isShowSelector).length = 1 :=
  C3_exactly_one_callback (debug_env ContentSetting.CONTENT_SETTING_BLOCK) initial
    (request_from "example.com:443" [{ handle := 1 }, { handle := 2 }]) (by decide)

/-- C4 fails as stated: in a build without DCHECKs the empty `host_and_port`, whose URL is not
valid, is not rejected; the request proceeds and the interactive selector is shown. -/
theorem C4_counterexample :
    (requesting_url (release_env ContentSetting.CONTENT_SETTING_ASK)
        (request_from "" [{ handle := 7 }])).is_valid = false ∧
    SelectClientCertificate (release_env ContentSetting.CONTENT_SETTING_ASK) initial
        (request_from "" [{ handle := 7 }]) =
      Except.ok (initial, [Call.ShowSSLClientCertificateSelector
        (request_from "" [{ handle := 7 }]).cert_request_info]) :=
  ⟨by decide, rfl⟩

/-- C4 (amended): for every `host_and_port` for which "https://" + `host_and_port` is not a
valid URL, a build with DCHECKs aborts on the assertion that streams
"Invalid URL string: https://" + `host_and_port`, before the setting is looked up, and makes
neither call; a build without DCHECKs does not check the URL and the request proceeds: the
call returns having made exactly one of the two calls. -/
theorem C4_invalid_url (env : Env) (s : State) (handler : SSLClientAuthHandler)
    (hbad : (requesting_url env handler).is_valid = false) :
    (env.dcheck_is_on = true →
      SelectClientCertificate env s handler =
        Except.error (DCheckFailure.requesting_url_is_valid
          ("Invalid URL string: https://" ++ handler.cert_request_info.host_and_port))) ∧
    (env.dcheck_is_on = false →
      ∃ call : Call, SelectClientCertificate env s handler = Except.ok (s, [call])) := by
  constructor
  · intro hd
    unfold requesting_url at hbad
    unfold SelectClientCertificate SelectClientCertificateWithFilter DCHECK
    simp [hd, hbad]
  · intro hd
    have hpass : passes_assertions env handler = true := by
      unfold passes_assertions
      simp [hd]
    unfold SelectClientCertificate
    rw [select_of_passes env s handler true hpass]
    split
    · exact ⟨_, rfl⟩
    · exact ⟨_, rfl⟩

/-- C4 (amended) at the empty `host_and_port` in a build with DCHECKs. -/
theorem C4_invalid_url_witness :
    SelectClientCertificate (debug_env ContentSetting.CONTENT_SETTING_ASK) initial
        (request_from "" [{ handle := 7 }]) =
      Except.error (DCheckFailure.requesting_url_is_valid "Invalid URL string: https://") :=
  (C4_invalid_url (debug_env ContentSetting.CONTENT_SETTING_ASK) initial
    (request_from "" [{ handle := 7 }]) (by decide)).1 rfl

/-- C5 fails as stated: in a build without DCHECKs a request whose setting resolves to DEFAULT
signals nothing and falls through to the interactive selector, like any setting that is not
ALLOW. -/
theorem C5_counterexample :
    resolved_setting (release_env ContentSetting.CONTENT_SETTING_DEFAULT)
        (request_from "example.com:443" [{ handle := 7 }]) =
      ContentSetting.CONTENT_SETTING_DEFAULT ∧
    SelectClientCertificate (release_env ContentSetting.CONTENT_SETTING_DEFAULT) initial
        (request_from "example.com:443" [{ handle := 7 }]) =
      Except.ok (initial, [Call.ShowSSLClientCertificateSelector
        (request_from "example.com:443" [{ handle := 7 }]).cert_request_info]) :=
  ⟨rfl, rfl⟩

/-- C5 (amended): for every request whose setting lookup is reached and resolves to DEFAULT,
a build with DCHECKs aborts on the assertion that the setting is not DEFAULT and makes neither
call; a build without DCHECKs signals nothing and shows the interactive selector, as for any
setting that is not ALLOW; no build auto-selects a certificate. -/
theorem C5_default_setting (env : Env) (s : State) (handler : SSLClientAuthHandler)
    (hurl : env.dcheck_is_on = true → (requesting_url env handler).is_valid = true)
    (hdef : resolved_setting env handler = ContentSetting.CONTENT_SETTING_DEFAULT) :
    (env.dcheck_is_on = true →
      SelectClientCertificate env s handler =
        Except.error DCheckFailure.setting_NE_CONTENT_SETTING_DEFAULT) ∧
    (env.dcheck_is_on = false →
      SelectClientCertificate env s handler =
        Except.ok (s, [Call.ShowSSLClientCertificateSelector handler.cert_request_info])) ∧
    (∀ cert : X509Certificate, ∀ s1 : State, ∀ calls : List Call,
      SelectClientCertificate env s handler = Except.ok (s1, calls) →
        Call.CertificateSelected cert ∉ calls) := by
  have hoff : env.dcheck_is_on = false →
      SelectClientCertificate env s handler =
        Except.ok (s, [Call.ShowSSLClientCertificateSelector handler.cert_request_info]) := by
    intro hd
    have hpass : passes_assertions env handler = true := by
      unfold passes_assertions
      simp [hd]
    unfold SelectClientCertificate
    rw [select_of_passes env s handler true hpass]
    simp [hdef]
  have hon : env.dcheck_is_on = true →
      SelectClientCertificate env s handler =
        Except.error DCheckFailure.setting_NE_CONTENT_SETTING_DEFAULT := by
    intro hd
    have hv := hurl hd
    unfold resolved_setting requesting_url at *
    unfold SelectClientCertificate SelectClientCertificateWithFilter DCHECK
    simp [hd, hv, hdef]
  refine ⟨hon, hoff, ?_⟩
  intro cert s1 calls hres
  cases hd : env.dcheck_is_on
  · rw [hoff hd] at hres
    injection hres with hres
    injection hres with _ hcalls
    subst hcalls
    simp
  · rw [hon hd] at hres
    cases hres

/-- C5 (amended) at `example.com:443`, DEFAULT, one candidate, in a build with DCHECKs. -/
theorem C5_default_setting_witness :
    SelectClientCertificate (debug_env ContentSetting.CONTENT_SETTING_DEFAULT) initial
        (request_from "example.com:443" [{ handle := 7 }]) =
      Except.error DCheckFailure.setting_NE_CONTENT_SETTING_DEFAULT :=
  (C5_default_setting (debug_env ContentSetting.CONTENT_SETTING_DEFAULT) initial
    (request_from "example.com:443" [{ handle := 7 }]) (fun _ => by decide) rfl).1 rfl

/-! ## Lemmas on the add-certificate infobars -/

/-- A notification event is `show_notification` of its handler and its object. -/
theorem step_notification (s : State) (e : Event) (h : e.is_notification = true) :
    ∃ object, e.object = some object ∧ step s e = show_notification s e.handler object := by
  cases e with
  | OnVerifyClientCertificateError handler error_code => exact ⟨_, rfl, rfl⟩
  | OnAddClientCertificateSuccess handler => exact ⟨_, rfl, rfl⟩
  | OnAddClientCertificateError handler error_code => exact ⟨_, rfl, rfl⟩
  | OnAddClientCertificateFinished handler => simp [Event.is_notification] at h

/-- The state after a notification for a request that tracks `old_delegate`. -/
theorem show_notification_replace (s : State) (handler : SSLAddCertHandler)
    (object : InfoBarDelegateObject) (old_delegate : InfoBarDelegate)
    (h : tracked s handler.network_request_id = some old_delegate) :
    show_notification s handler object =
      { objects := s.objects ++ [object]
        infobars_ := replace_delegate old_delegate s.objects.length s.infobars_
        infobar_calls :=
          s.infobar_calls ++ [InfoBarCall.ReplaceInfoBar old_delegate s.objects.length]
        request_id_to_add_cert_data_ := fun id =>
          if id = handler.network_request_id then
            some (some { infobar_delegate_ := some s.objects.length })
          else
            Option.map (Option.map (fun data => data.Observe
              (Notification.NOTIFICATION_TAB_CONTENTS_INFOBAR_REPLACED old_delegate
                s.objects.length))) (s.request_id_to_add_cert_data_ id) } := by
  unfold tracked at h
  unfold show_notification GetAddCertData new_InfoBarDelegate ShowInfoBar
  split at h
  · rename_i data hdata
    simp only [hdata, if_true, h]
    simp only [ReplaceInfoBar, Notify, SSLAddCertData.Observe]
    congr 1
    funext id
    by_cases hid : id = handler.network_request_id
    · simp [hid]
    · simp [hid]
  · cases h

/-- The state after a notification for a request that tracks no infobar. -/
theorem show_notification_add (s : State) (handler : SSLAddCertHandler)
    (object : InfoBarDelegateObject)
    (h : tracked s handler.network_request_id = none) :
    show_notification s handler object =
      { objects := s.objects ++ [object]
        infobars_ := s.infobars_ ++ [s.objects.length]
        infobar_calls := s.infobar_calls ++ [InfoBarCall.AddInfoBar s.objects.length]
        request_id_to_add_cert_data_ := fun id =>
          if id = handler.network_request_id then
            some (some { infobar_delegate_ := some s.objects.length })
          else s.request_id_to_add_cert_data_ id } := by
  unfold tracked at h
  unfold show_notification GetAddCertData new_InfoBarDelegate ShowInfoBar
  split at h
  · rename_i data hdata
    simp only [hdata, if_true, h]
    simp only [AddInfoBar]
    congr 1
    funext id
    by_cases hid : id = handler.network_request_id
    · simp [hid]
    · simp [hid]
  · rename_i hno
    cases hslot : s.request_id_to_add_cert_data_ handler.network_request_id with
    | none =>
      simp only [hslot, if_true, SSLAddCertData.new, AddInfoBar]
      congr 1
      funext id
      by_cases hid : id = handler.network_request_id
      · simp [hid]
      · simp [hid]
    | some slot =>
      cases slot with
      | none =>
        simp only [hslot, if_true, SSLAddCertData.new, AddInfoBar]
        congr 1
        funext id
        by_cases hid : id = handler.network_request_id
        · simp [hid]
        · simp [hid]
      | some data => exact absurd hslot (hno data)

/-- The new delegate is displayed after a replacement. -/
theorem new_mem_replace_delegate (o n : InfoBarDelegate) (l : List InfoBarDelegate) :
    n ∈ replace_delegate o n l := by
  induction l with
  | nil => simp [replace_delegate]
  | cons d ds ih =>
    by_cases hd : d = o
    · simp [replace_delegate, hd]
    · simp [replace_delegate, hd, ih]

/-- Whatever is displayed after a replacement is the new delegate or was displayed. -/
theorem mem_of_mem_replace_delegate (o n x : InfoBarDelegate) (l : List InfoBarDelegate)
    (h : x ∈ replace_delegate o n l) : x = n ∨ x ∈ l := by
  induction l with
  | nil => simpa [replace_delegate] using h
  | cons d ds ih =>
    by_cases hd : d = o
    · simp only [replace_delegate, hd, if_true, List.mem_cons] at h
      rcases h with h | h
      · exact Or.inl h
      · exact Or.inr (List.mem_cons_of_mem _ h)
    · simp only [replace_delegate, hd, if_false, List.mem_cons] at h
      rcases h with h | h
      · exact Or.inr (by simp [h])
      · rcases ih h with h1 | h1
        · exact Or.inl h1
        · exact Or.inr (List.mem_cons_of_mem _ h1)

/-- A displayed delegate other than the old one stays displayed after a replacement. -/
theorem mem_replace_delegate_of_ne (o n x : InfoBarDelegate) (l : List InfoBarDelegate)
    (hx : x ∈ l) (hne : x ≠ o) : x ∈ replace_delegate o n l := by
  induction l with
  | nil => cases hx
  | cons d ds ih =>
    by_cases hd : d = o
    · simp only [replace_delegate, hd, if_true, List.mem_cons]
      rcases List.mem_cons.mp hx with h | h
      · exact absurd (h.trans hd) hne
      · exact Or.inr h
    · simp only [replace_delegate, hd, if_false, List.mem_cons]
      rcases List.mem_cons.mp hx with h | h
      · exact Or.inl h
      · exact Or.inr (ih h)

/-- The old delegate is no longer displayed after a replacement, when nothing was displayed
twice and the new delegate is another one. -/
theorem old_not_mem_replace_delegate (o n : InfoBarDelegate) (l : List InfoBarDelegate)
    (hnd : l.Nodup) (hne : o ≠ n) : o ∉ replace_delegate o n l := by
  induction l with
  | nil => simpa [replace_delegate] using hne
  | cons d ds ih =>
    rw [List.nodup_cons] at hnd
    by_cases hd : d = o
    · subst hd
      simp only [replace_delegate, if_true, List.mem_cons, not_or]
      exact ⟨hne, hnd.1⟩
    · simp only [replace_delegate, hd, if_false, List.mem_cons, not_or]
      exact ⟨fun h => hd h.symm, ih hnd.2⟩

/-- Nothing is displayed twice after a replacement by a delegate that was not displayed. -/
theorem nodup_replace_delegate (o n : InfoBarDelegate) (l : List InfoBarDelegate)
    (hnd : l.Nodup) (hn : n ∉ l) : (replace_delegate o n l).Nodup := by
  induction l with
  | nil => simp [replace_delegate]
  | cons d ds ih =>
    rw [List.nodup_cons] at hnd
    rw [List.mem_cons, not_or] at hn
    by_cases hd : d = o
    · simp only [replace_delegate, hd, if_true, List.nodup_cons]
      exact ⟨hn.2, hnd.2⟩
    · simp only [replace_delegate, hd, if_false, List.nodup_cons]
      refine ⟨fun h => ?_, ih hnd.2 hn.2⟩
      rcases mem_of_mem_replace_delegate o n d ds h with h1 | h1
      · exact hn.1 h1.symm
      · exact hnd.1 h1

/-- A replacement of a displayed delegate keeps the number of displayed infobars. -/
theorem length_replace_delegate (o n : InfoBarDelegate) (l : List InfoBarDelegate)
    (ho : o ∈ l) : (replace_delegate o n l).length = l.length := by
  induction l with
  | nil => cases ho
  | cons d ds ih =>
    by_cases hd : d = o
    · simp [replace_delegate, hd]
    · rcases List.mem_cons.mp ho with h | h
      · exact absurd h.symm hd
      · simp [replace_delegate, hd, ih h]

/-- The delegate the next `new` returns is not displayed in a consistent state. -/
theorem WF.fresh {s : State} (hwf : WF s) : s.objects.length ∉ s.infobars_ :=
  fun h => Nat.lt_irrefl _ (hwf.2.1 _ h)

/-- A notification keeps the helper consistent with its tab. -/
theorem WF_show_notification (s : State) (handler : SSLAddCertHandler)
    (object : InfoBarDelegateObject) (hwf : WF s) :
    WF (show_notification s handler object) := by
  obtain ⟨hnd, hlt, htr⟩ := hwf
  have hfresh : s.objects.length ∉ s.infobars_ := fun h => Nat.lt_irrefl _ (hlt _ h)
  cases ht : tracked s handler.network_request_id with
  | none =>
    rw [show_notification_add s handler object ht]
    refine ⟨?_, ?_, ?_⟩
    · refine List.nodup_append.mpr ⟨hnd, List.nodup_singleton _, ?_⟩
      intro x hx hx1
      rw [List.mem_singleton] at hx1
      exact hfresh (hx1 ▸ hx)
    · intro d hd
      simp only [List.mem_append, List.mem_singleton, List.length_append,
        List.length_singleton] at hd ⊢
      rcases hd with hd | hd
      · exact Nat.lt_succ_of_lt (hlt d hd)
      · rw [hd]
        exact Nat.lt_succ_self _
    · intro id d hd
      simp only [tracked] at hd
      by_cases hid : id = handler.network_request_id
      · simp only [hid, if_true, Option.some.injEq] at hd
        simp [← hd]
      · simp only [hid, if_false] at hd
        exact List.mem_append_left _ (htr id d (by simpa only [tracked] using hd))
  | some old =>
    rw [show_notification_replace s handler object old ht]
    refine ⟨nodup_replace_delegate _ _ _ hnd hfresh, ?_, ?_⟩
    · intro d hd
      simp only [List.length_append, List.length_singleton]
      rcases mem_of_mem_replace_delegate _ _ _ _ hd with h | h
      · rw [h]
        exact Nat.lt_succ_self _
      · exact Nat.lt_succ_of_lt (hlt d h)
    · intro id d hd
      simp only [tracked] at hd
      by_cases hid : id = handler.network_request_id
      · simp only [hid, if_true, Option.some.injEq] at hd
        rw [← hd]
        exact new_mem_replace_delegate _ _ _
      · simp only [hid, if_false] at hd
        cases hslot : s.request_id_to_add_cert_data_ id with
        | none => simp [hslot] at hd
        | some slot =>
          cases slot with
          | none => simp [hslot] at hd
          | some data =>
            simp only [hslot, Option.map_some', SSLAddCertData.Observe] at hd
            by_cases hold : data.infobar_delegate_ = some old
            · simp [hold] at hd
            · simp only [hold, if_false] at hd
              have hmem : d ∈ s.infobars_ := htr id d (by simp [tracked, hslot, hd])
              have hne : d ≠ old := fun h => hold (by rw [hd, h])
              exact mem_replace_delegate_of_ne _ _ _ _ hmem hne

/-- The end of a request keeps the helper consistent with its tab. -/
theorem WF_finished (s : State) (handler : SSLAddCertHandler) (hwf : WF s) :
    WF (OnAddClientCertificateFinished s handler) := by
  obtain ⟨hnd, hlt, htr⟩ := hwf
  refine ⟨hnd, hlt, ?_⟩
  intro id d hd
  simp only [tracked, OnAddClientCertificateFinished] at hd
  by_cases hid : id = handler.network_request_id
  · simp [hid] at hd
  · simp only [hid, if_false] at hd
    exact htr id d (by simpa only [tracked] using hd)

/-- Every event keeps the helper consistent with its tab. -/
theorem WF_step (s : State) (e : Event) (hwf : WF s) : WF (step s e) := by
  cases hn : e.is_notification
  · cases e with
    | OnAddClientCertificateFinished handler => exact WF_finished s handler hwf
    | OnVerifyClientCertificateError handler error_code => simp [Event.is_notification] at hn
    | OnAddClientCertificateSuccess handler => simp [Event.is_notification] at hn
    | OnAddClientCertificateError handler error_code => simp [Event.is_notification] at hn
  · obtain ⟨object, _, hstep⟩ := step_notification s e hn
    rw [hstep]
    exact WF_show_notification s e.handler object hwf

/-- A new helper is consistent with its tab. -/
theorem WF_initial : WF initial := by
  refine ⟨List.nodup_nil, ?_, ?_⟩
  · intro d hd
    simp [initial] at hd
  · intro id d hd
    simp [tracked, initial] at hd

/-- Every state reached from a consistent state is consistent. -/
theorem WF_run (events : List Event) (s : State) (hwf : WF s) : WF (run s events) := by
  induction events generalizing s with
  | nil => exact hwf
  | cons e es ih => exact ih (step s e) (WF_step s e hwf)

/-- The request id of an event is that of its handler. -/
theorem Event.request_id_eq (e : Event) : e.request_id = e.handler.network_request_id := by
  cases e <;> rfl

/-- After a notification the objects created are those before and the new delegate object. -/
theorem objects_show_notification (s : State) (handler : SSLAddCertHandler)
    (object : InfoBarDelegateObject) :
    (show_notification s handler object).objects = s.objects ++ [object] := by
  cases ht : tracked s handler.network_request_id with
  | none => rw [show_notification_add s handler object ht]
  | some old => rw [show_notification_replace s handler object old ht]

/-- After a notification the state of the request tracks the new delegate. -/
theorem tracked_show_notification (s : State) (handler : SSLAddCertHandler)
    (object : InfoBarDelegateObject) :
    tracked (show_notification s handler object) handler.network_request_id =
      some s.objects.length := by
  cases ht : tracked s handler.network_request_id with
  | none =>
    rw [show_notification_add s handler object ht]
    simp [tracked]
  | some old =>
    rw [show_notification_replace s handler object old ht]
    simp [tracked]

/-- After a notification the new delegate is displayed. -/
theorem new_mem_show_notification (s : State) (handler : SSLAddCertHandler)
    (object : InfoBarDelegateObject) :
    s.objects.length ∈ (show_notification s handler object).infobars_ := by
  cases ht : tracked s handler.network_request_id with
  | none =>
    rw [show_notification_add s handler object ht]
    simp
  | some old =>
    rw [show_notification_replace s handler object old ht]
    exact new_mem_replace_delegate _ _ _

/-- Whether the map has an entry for an id after an event: the event decides for its own
request id and leaves the others as they were. -/
theorem has_entry_step (s : State) (e : Event) (id : Int) :
    has_entry (step s e) id =
      if e.request_id = id then e.is_notification else has_entry s id := by
  cases hn : e.is_notification
  · cases e with
    | OnAddClientCertificateFinished handler =>
      by_cases hid : handler.network_request_id = id
      · simp [has_entry, step, OnAddClientCertificateFinished, Event.request_id, hid]
      · have hid1 : ¬ id = handler.network_request_id := fun h => hid h.symm
        simp [has_entry, step, OnAddClientCertificateFinished, Event.request_id, hid, hid1]
    | OnVerifyClientCertificateError handler error_code => simp [Event.is_notification] at hn
    | OnAddClientCertificateSuccess handler => simp [Event.is_notification] at hn
    | OnAddClientCertificateError handler error_code => simp [Event.is_notification] at hn
  · obtain ⟨object, _, hstep⟩ := step_notification s e hn
    rw [hstep, Event.request_id_eq]
    by_cases hid : e.handler.network_request_id = id
    · have hid1 : id = e.handler.network_request_id := hid.symm
      cases ht : tracked s e.handler.network_request_id with
      | none =>
        rw [show_notification_add s e.handler object ht]
        simp [has_entry, hid1]
      | some old =>
        rw [show_notification_replace s e.handler object old ht]
        simp [has_entry, hid1]
    · have hid1 : ¬ id = e.handler.network_request_id := fun h => hid h.symm
      cases ht : tracked s e.handler.network_request_id with
      | none =>
        rw [show_notification_add s e.handler object ht]
        simp [has_entry, hid, hid1]
      | some old =>
        rw [show_notification_replace s e.handler object old ht]
        simp [has_entry, hid, hid1]

/-- The latest event for an id after one more event. -/
theorem last_event_for_append (id : Int) (events : List Event) (e : Event) :
    last_event_for id (events ++ [e]) =
      if e.request_id = id then some e else last_event_for id events := by
  by_cases hid : e.request_id = id
  · simp [last_event_for, List.find?_cons, hid]
  · simp [last_event_for, List.find?_cons, hid]

/-- The run of a sequence extended by one event. -/
theorem run_append (s : State) (events : List Event) (e : Event) :
    run s (events ++ [e]) = step (run s events) e := by
  simp [run, List.foldl_append]

/-- Whether the map has an entry for an id after a sequence of events: the latest event for
the id decides, and without one the entry is as at the start. -/
theorem has_entry_run (s : State) (events : List Event) (id : Int) :
    has_entry (run s events) id =
      match last_event_for id events with
      | some e => e.is_notification
      | none => has_entry s id := by
  induction events using List.reverseRecOn with
  | nil => simp [run, last_event_for]
  | append_singleton es e ih =>
    rw [run_append, has_entry_step, last_event_for_append]
    by_cases hid : e.request_id = id
    · simp [hid]
    · simp [hid, ih]

/-! ## Claims on the map from request ids to notification states -/

/-- C6: for every map and request id, `GetAddCertData` returns the state stored under the id
when there is one, and otherwise a new state that tracks no infobar, stored under the id; it
always returns, the map has an entry for the id afterwards, and nothing else changes. -/
theorem C6_GetAddCertData_finds_or_creates (s : State) (handler : SSLAddCertHandler) :
    (GetAddCertData s handler).2 = handler.network_request_id ∧
    (∀ data : SSLAddCertData,
      s.request_id_to_add_cert_data_ handler.network_request_id = some (some data) →
      (GetAddCertData s handler).1.request_id_to_add_cert_data_ (GetAddCertData s handler).2 =
        some (some data)) ∧
    ((∀ data : SSLAddCertData,
      s.request_id_to_add_cert_data_ handler.network_request_id ≠ some (some data)) →
      (GetAddCertData s handler).1.request_id_to_add_cert_data_ (GetAddCertData s handler).2 =
        some (some { infobar_delegate_ := none })) ∧
    has_entry (GetAddCertData s handler).1 handler.network_request_id = true ∧
    (∀ other : Int, other ≠ handler.network_request_id →
      (GetAddCertData s handler).1.request_id_to_add_cert_data_ other =
        s.request_id_to_add_cert_data_ other) ∧
    (GetAddCertData s handler).1.objects = s.objects ∧
    (GetAddCertData s handler).1.infobars_ = s.infobars_ ∧
    (GetAddCertData s handler).1.infobar_calls = s.infobar_calls := by
  refine ⟨rfl, ?_, ?_, ?_, ?_, rfl, rfl, rfl⟩
  · intro data hdata
    simp [GetAddCertData, hdata]
  · intro hno
    cases hslot : s.request_id_to_add_cert_data_ handler.network_request_id with
    | none => simp [GetAddCertData, hslot, SSLAddCertData.new]
    | some slot =>
      cases slot with
      | none => simp [GetAddCertData, hslot, SSLAddCertData.new]
      | some data => exact absurd hslot (hno data)
  · simp [has_entry, GetAddCertData]
  · intro other hother
    simp [GetAddCertData, hother]

/-- C6 on a new helper: the state created for request 1 tracks no infobar. -/
theorem C6_GetAddCertData_finds_or_creates_witness :
    (GetAddCertData initial handler_one).1.request_id_to_add_cert_data_
        (GetAddCertData initial handler_one).2 =
      some (some { infobar_delegate_ := none }) :=
  (C6_GetAddCertData_finds_or_creates initial handler_one).2.2.1
    (fun data h => by simp [initial] at h)

/-- C7: for every state consistent with its tab and every notification event (verify error,
add success, add error), with `new` the delegate the event creates: when the state of the
request tracks an infobar `old`, the one call made on the tab is `ReplaceInfoBar(old, new)`,
`old` is no longer displayed and the number of displayed infobars is as before; when it tracks
none (or there is no state yet), the one call is `AddInfoBar(new)` and `new` is displayed after
the others; in both cases the state of the request tracks `new` afterwards, `new` is displayed,
and it is the only infobar displayed that was not displayed before. -/
theorem C7_notification_replaces_tracked_infobar (s : State) (e : Event) (hwf : WF s)
    (hn : e.is_notification = true) :
    tracked (step s e) e.request_id = some s.objects.length ∧
    (step s e).objects = s.objects ++ e.object.toList ∧
    s.objects.length ∈ (step s e).infobars_ ∧
    (∀ old : InfoBarDelegate, tracked s e.request_id = some old →
      (step s e).infobar_calls =
        s.infobar_calls ++ [InfoBarCall.ReplaceInfoBar old s.objects.length] ∧
      old ∉ (step s e).infobars_ ∧
      (step s e).infobars_.length = s.infobars_.length) ∧
    (tracked s e.request_id = none →
      (step s e).infobar_calls = s.infobar_calls ++ [InfoBarCall.AddInfoBar s.objects.length] ∧
      (step s e).infobars_ = s.infobars_ ++ [s.objects.length]) ∧
    (∀ d ∈ (step s e).infobars_, d ∉ s.infobars_ → d = s.objects.length) := by
  obtain ⟨object, hobj, hstep⟩ := step_notification s e hn
  rw [hstep, Event.request_id_eq, hobj]
  refine ⟨tracked_show_notification s e.handler object,
    objects_show_notification s e.handler object,
    new_mem_show_notification s e.handler object, ?_, ?_, ?_⟩
  · intro old hold
    rw [show_notification_replace s e.handler object old hold]
    have hmem : old ∈ s.infobars_ := hwf.2.2 _ _ hold
    have hne : old ≠ s.objects.length := fun h => hwf.fresh (h ▸ hmem)
    exact ⟨rfl, old_not_mem_replace_delegate _ _ _ hwf.1 hne,
      length_replace_delegate _ _ _ hmem⟩
  · intro hnone
    rw [show_notification_add s e.handler object hnone]
    exact ⟨rfl, rfl⟩
  · intro d hd hnot
    cases ht : tracked s e.handler.network_request_id with
    | none =>
      rw [show_notification_add s e.handler object ht] at hd
      rcases List.mem_append.mp hd with h | h
      · exact absurd h hnot
      · exact List.mem_singleton.mp h
    | some old =>
      rw [show_notification_replace s e.handler object old ht] at hd
      rcases mem_of_mem_replace_delegate _ _ _ _ hd with h | h
      · exact h
      · exact absurd h hnot

/-- C7 on a new helper: the first notification for request 1 adds infobar 0 and the state
tracks it. -/
theorem C7_notification_replaces_tracked_infobar_witness :
    tracked (step initial (Event.OnAddClientCertificateSuccess handler_one)) 1 = some 0 :=
  (C7_notification_replaces_tracked_infobar initial
    (Event.OnAddClientCertificateSuccess handler_one) WF_initial rfl).1

/-- C8: for every map and request id, `OnAddClientCertificateFinished` leaves the map without
an entry for the id and the other keys as they were; when the id had no entry, nothing
changes. -/
theorem C8_finished_erases_entry (s : State) (handler : SSLAddCertHandler) :
    has_entry (OnAddClientCertificateFinished s handler) handler.network_request_id = false ∧
    (∀ other : Int, other ≠ handler.network_request_id →
      (OnAddClientCertificateFinished s handler).request_id_to_add_cert_data_ other =
        s.request_id_to_add_cert_data_ other) ∧
    (has_entry s handler.network_request_id = false →
      OnAddClientCertificateFinished s handler = s) := by
  refine ⟨?_, ?_, ?_⟩
  · simp [has_entry, OnAddClientCertificateFinished]
  · intro other hother
    simp [OnAddClientCertificateFinished, hother]
  · intro habsent
    cases s with
    | mk objects infobars calls table =>
      simp only [OnAddClientCertificateFinished, State.mk.injEq, true_and]
      funext id
      by_cases hid : id = handler.network_request_id
      · have hnone : table handler.network_request_id = none := by
          cases hslot : table handler.network_request_id with
          | none => rfl
          | some slot => simp [has_entry, hslot] at habsent
        simp [hid, hnone]
      · simp [hid]

/-- C8 on a new helper: finishing request 1, which has no entry, changes nothing. -/
theorem C8_finished_erases_entry_witness :
    OnAddClientCertificateFinished initial handler_one = initial :=
  (C8_finished_erases_entry initial handler_one).2.2 rfl

/-- C9: for every state consistent with its tab, every request id and every two notification
events for it followed by `OnAddClientCertificateFinished`: just before Finished the state of
the request tracks the second notification's infobar, which is displayed, while the first
notification's infobar and the one tracked at the start are not displayed (the second call on
the tab was a `ReplaceInfoBar` of the first by the second, which kept the number of displayed
infobars); after Finished the map has no entry for the id. -/
theorem C9_two_notifications_then_finished (s : State) (e1 e2 : Event)
    (handler : SSLAddCertHandler) (hwf : WF s)
    (h1 : e1.is_notification = true) (h2 : e2.is_notification = true)
    (hid1 : e1.request_id = handler.network_request_id)
    (hid2 : e2.request_id = handler.network_request_id) :
    tracked (run s [e1, e2]) handler.network_request_id = some (s.objects.length + 1) ∧
    (run s [e1, e2]).objects = s.objects ++ e1.object.toList ++ e2.object.toList ∧
    s.objects.length + 1 ∈ (run s [e1, e2]).infobars_ ∧
    s.objects.length ∉ (run s [e1, e2]).infobars_ ∧
    (∀ old : InfoBarDelegate, tracked s handler.network_request_id = some old →
      old ∉ (run s [e1, e2]).infobars_) ∧
    (run s [e1, e2]).infobar_calls =
      (run s [e1]).infobar_calls ++
        [InfoBarCall.ReplaceInfoBar s.objects.length (s.objects.length + 1)] ∧
    (run s [e1, e2]).infobars_.length = (run s [e1]).infobars_.length ∧
    has_entry (run s [e1, e2, Event.OnAddClientCertificateFinished handler])
      handler.network_request_id = false := by
  obtain ⟨object1, hobj1, hstep1⟩ := step_notification s e1 h1
  obtain ⟨object2, hobj2, hstep2⟩ := step_notification (step s e1) e2 h2
  rw [Event.request_id_eq] at hid1 hid2
  have hrun1 : run s [e1] = step s e1 := rfl
  have hrun2 : run s [e1, e2] = step (step s e1) e2 := rfl
  have hrun3 : run s [e1, e2, Event.OnAddClientCertificateFinished handler] =
      step (step (step s e1) e2) (Event.OnAddClientCertificateFinished handler) := rfl
  have hwf1 : WF (step s e1) := WF_step s e1 hwf
  have hobjs1 : (step s e1).objects = s.objects ++ [object1] := by
    rw [hstep1]
    exact objects_show_notification s e1.handler object1
  have hlen1 : (step s e1).objects.length = s.objects.length + 1 := by
    rw [hobjs1]
    simp
  have htr1 : tracked (step s e1) e2.handler.network_request_id = some s.objects.length := by
    rw [hid2, ← hid1, hstep1]
    exact tracked_show_notification s e1.handler object1
  have hmem1 : s.objects.length ∈ (step s e1).infobars_ := hwf1.2.2 _ _ htr1
  have hstate2 : step (step s e1) e2 = _ :=
    hstep2.trans (show_notification_replace (step s e1) e2.handler object2 _ htr1)
  rw [hrun1, hrun2, hrun3, has_entry_step, hstate2, hlen1]
  refine ⟨?_, ?_, new_mem_replace_delegate _ _ _, ?_, ?_, rfl, ?_, ?_⟩
  · simp [tracked, hid2]
  · simp [hobjs1, hobj1, hobj2]
  · exact old_not_mem_replace_delegate _ _ _ hwf1.1 (Nat.ne_of_lt (Nat.lt_succ_self _))
  · intro old hold hmem
    have hold_mem : old ∈ s.infobars_ := hwf.2.2 _ _ hold
    have hold_lt : old < s.objects.length := hwf.2.1 _ hold_mem
    have hne : old ≠ s.objects.length := Nat.ne_of_lt hold_lt
    have hnot1 : old ∉ (step s e1).infobars_ := by
      rw [hstep1, show_notification_replace s e1.handler object1 old (hid1 ▸ hold)]
      exact old_not_mem_replace_delegate _ _ _ hwf.1 hne
    rcases mem_of_mem_replace_delegate _ _ _ _ hmem with h | h
    · exact absurd h (Nat.ne_of_lt (Nat.lt_succ_of_lt hold_lt))
    · exact hnot1 h
  · exact length_replace_delegate _ _ _ hmem1
  · simp [Event.request_id, Event.is_notification]

/-- C9 on a new helper: a verify error and then an add error for request 1 leave infobar 1
displayed and infobar 0 replaced, and Finished then removes the entry. -/
theorem C9_two_notifications_then_finished_witness :
    tracked (run initial [Event.OnVerifyClientCertificateError handler_one (-3),
      Event.OnAddClientCertificateError handler_one (-5)]) 1 = some 1 ∧
    (run initial [Event.OnVerifyClientCertificateError handler_one (-3),
      Event.OnAddClientCertificateError handler_one (-5)]).infobars_ = [1] ∧
    has_entry (run initial [Event.OnVerifyClientCertificateError handler_one (-3),
      Event.OnAddClientCertificateError handler_one (-5),
      Event.OnAddClientCertificateFinished handler_one]) 1 = false :=
  ⟨(C9_two_notifications_then_finished initial
      (Event.OnVerifyClientCertificateError handler_one (-3))
      (Event.OnAddClientCertificateError handler_one (-5)) handler_one
      WF_initial rfl rfl rfl rfl).1,
    rfl,
    (C9_two_notifications_then_finished initial
      (Event.OnVerifyClientCertificateError handler_one (-3))
      (Event.OnAddClientCertificateError handler_one (-5)) handler_one
      WF_initial rfl rfl rfl rfl).2.2.2.2.2.2.2⟩

/-- C10 fails as stated: after Finished for request 1 and then an add success for request 1,
the map has an entry for request 1, whose Finished event has been delivered. -/
theorem C10_counterexample :
    Event.OnAddClientCertificateFinished handler_one ∈ finished_then_success ∧
    has_entry (run initial finished_then_success) handler_one.network_request_id = true :=
  ⟨by simp [finished_then_success], rfl⟩

/-- C10 (amended): in every state reached from the empty map by a sequence of the four events,
the map has an entry for a request id exactly when the latest event for that id is a
notification; so it holds no entry for an id whose Finished event has been delivered unless a
notification for the same id was delivered after it. -/
theorem C10_entry_iff_latest_event_is_notification (events : List Event) (id : Int) :
    (has_entry (run initial events) id = true ↔
      ∃ e : Event, last_event_for id events = some e ∧ e.is_notification = true) ∧
    ((∃ handler : SSLAddCertHandler,
        last_event_for id events = some (Event.OnAddClientCertificateFinished handler)) →
      has_entry (run initial events) id = false) := by
  have hrun := has_entry_run initial events id
  constructor
  · cases hlast : last_event_for id events with
    | none =>
      rw [hlast] at hrun
      have hfalse : has_entry (run initial events) id = false := hrun
      simp [hfalse]
    | some e =>
      rw [hlast] at hrun
      simp [hrun]
  · rintro ⟨handler, hlast⟩
    rw [hlast] at hrun
    simpa [Event.is_notification] using hrun

/-- C10 (amended) on a success followed by Finished for request 1: no entry is left. -/
theorem C10_entry_iff_latest_event_is_notification_witness :
    has_entry (run initial [Event.OnAddClientCertificateSuccess handler_one,
      Event.OnAddClientCertificateFinished handler_one]) 1 = false :=
  (C10_entry_iff_latest_event_is_notification
    [Event.OnAddClientCertificateSuccess handler_one,
      Event.OnAddClientCertificateFinished handler_one] 1).2 ⟨handler_one, rfl⟩

/-! ## Lemmas on infobar notifications -/

/-- The method `Observe` in terms of the `first` member of the details. -/
theorem Observe_eq (self : SSLAddCertData) (notification : Notification) :
    self.Observe notification =
      if self.infobar_delegate_ = some notification.first then
        { self with infobar_delegate_ := none }
      else self := by
  cases notification <;> rfl

/-- The infobar a state tracks after a notification of the tab. -/
theorem tracked_Notify (s : State) (notification : Notification) (b : Int) :
    tracked (Notify s notification) b =
      if tracked s b = some notification.first then none else tracked s b := by
  simp only [tracked, Notify]
  cases hslot : s.request_id_to_add_cert_data_ b with
  | none => simp
  | some slot =>
    cases slot with
    | none => simp
    | some data =>
      simp only [Option.map_some', Observe_eq]
      by_cases hfirst : data.infobar_delegate_ = some notification.first
      · simp [hfirst]
      · simp [hfirst]

/-- The slot of a state that does not track the `first` member of the details is left as it
is by the notification. -/
theorem slot_Notify_of_ne (s : State) (notification : Notification) (b : Int)
    (hne : tracked s b ≠ some notification.first) :
    (Notify s notification).request_id_to_add_cert_data_ b =
      s.request_id_to_add_cert_data_ b := by
  simp only [tracked] at hne
  simp only [Notify]
  cases hslot : s.request_id_to_add_cert_data_ b with
  | none => simp
  | some slot =>
    cases slot with
    | none => simp
    | some data =>
      rw [hslot] at hne
      have hdata : data.infobar_delegate_ ≠ some notification.first := hne
      simp [Observe_eq, hdata]

/-- What a state tracks after a notification of the tab, it tracked before, and it is not the
`first` member of the details. -/
theorem tracked_Notify_some (s : State) (notification : Notification) (b : Int)
    (d : InfoBarDelegate) (h : tracked (Notify s notification) b = some d) :
    tracked s b = some d ∧ d ≠ notification.first := by
  rw [tracked_Notify] at h
  by_cases hfirst : tracked s b = some notification.first
  · simp [hfirst] at h
  · simp only [hfirst, if_false] at h
    refine ⟨h, fun hd => hfirst ?_⟩
    rw [h, hd]

/-- The slots of the other request ids after an event of the helper, when no infobar is
tracked by the states of two request ids. -/
theorem slot_step_other (s : State) (e : Event) (b : Int) (hdist : distinct_tracked s)
    (hne : e.request_id ≠ b) :
    (step s e).request_id_to_add_cert_data_ b = s.request_id_to_add_cert_data_ b := by
  rw [Event.request_id_eq] at hne
  have hb : ¬ b = e.handler.network_request_id := fun h => hne h.symm
  cases hn : e.is_notification
  · cases e with
    | OnAddClientCertificateFinished handler =>
      simp only [Event.handler] at hb
      simp [step, OnAddClientCertificateFinished, hb]
    | OnVerifyClientCertificateError handler error_code => simp [Event.is_notification] at hn
    | OnAddClientCertificateSuccess handler => simp [Event.is_notification] at hn
    | OnAddClientCertificateError handler error_code => simp [Event.is_notification] at hn
  · obtain ⟨object, _, hstep⟩ := step_notification s e hn
    rw [hstep]
    cases ht : tracked s e.handler.network_request_id with
    | none =>
      rw [show_notification_add s e.handler object ht]
      simp [hb]
    | some old =>
      rw [show_notification_replace s e.handler object old ht]
      simp only [hb, if_false]
      have hnot : tracked s b ≠ some old := fun hbt => hne (hdist _ _ _ ht hbt)
      exact slot_Notify_of_ne s
        (Notification.NOTIFICATION_TAB_CONTENTS_INFOBAR_REPLACED old s.objects.length) b hnot

/-- What the state of another request id tracks after an event of the helper, it tracked
before. -/
theorem tracked_step_other_some (s : State) (e : Event) (b : Int) (d : InfoBarDelegate)
    (hne : e.request_id ≠ b) (h : tracked (step s e) b = some d) :
    tracked s b = some d := by
  rw [Event.request_id_eq] at hne
  have hb : ¬ b = e.handler.network_request_id := fun h => hne h.symm
  cases hn : e.is_notification
  · cases e with
    | OnAddClientCertificateFinished handler =>
      simp only [Event.handler] at hb
      simpa [tracked, step, OnAddClientCertificateFinished, hb] using h
    | OnVerifyClientCertificateError handler error_code => simp [Event.is_notification] at hn
    | OnAddClientCertificateSuccess handler => simp [Event.is_notification] at hn
    | OnAddClientCertificateError handler error_code => simp [Event.is_notification] at hn
  · obtain ⟨object, _, hstep⟩ := step_notification s e hn
    rw [hstep] at h
    cases ht : tracked s e.handler.network_request_id with
    | none =>
      rw [show_notification_add s e.handler object ht] at h
      simpa [tracked, hb] using h
    | some old =>
      rw [show_notification_replace s e.handler object old ht] at h
      have h1 : tracked (Notify s
          (Notification.NOTIFICATION_TAB_CONTENTS_INFOBAR_REPLACED old s.objects.length)) b =
          some d := by
        simpa [tracked, Notify, hb] using h
      exact (tracked_Notify_some s _ b d h1).1

/-- What the state of the request tracks after an event of the helper for it. -/
theorem tracked_step_self (s : State) (e : Event) :
    tracked (step s e) e.request_id =
      if e.is_notification then some s.objects.length else none := by
  cases hn : e.is_notification
  · cases e with
    | OnAddClientCertificateFinished handler =>
      simp [tracked, step, OnAddClientCertificateFinished, Event.request_id]
    | OnVerifyClientCertificateError handler error_code => simp [Event.is_notification] at hn
    | OnAddClientCertificateSuccess handler => simp [Event.is_notification] at hn
    | OnAddClientCertificateError handler error_code => simp [Event.is_notification] at hn
  · obtain ⟨object, _, hstep⟩ := step_notification s e hn
    rw [hstep, Event.request_id_eq]
    simpa using tracked_show_notification s e.handler object

/-- Every event of the helper keeps the tracked infobars distinct. -/
theorem distinct_step (s : State) (e : Event) (hwf : WF s) (hdist : distinct_tracked s) :
    distinct_tracked (step s e) := by
  have hself : ∀ d, tracked (step s e) e.request_id = some d → d = s.objects.length := by
    intro d hd
    rw [tracked_step_self] at hd
    cases hn : e.is_notification
    · simp [hn] at hd
    · simp only [hn, if_true, Option.some.injEq] at hd
      exact hd.symm
  have hother : ∀ b d, e.request_id ≠ b → tracked (step s e) b = some d →
      d ≠ s.objects.length := by
    intro b d hb hd hfresh
    have hmem : d ∈ s.infobars_ := hwf.2.2 b d (tracked_step_other_some s e b d hb hd)
    exact hwf.fresh (hfresh ▸ hmem)
  intro a b d ha hb
  by_cases haid : e.request_id = a
  · by_cases hbid : e.request_id = b
    · exact haid.symm.trans hbid
    · exact absurd (hself d (haid ▸ ha)) (hother b d hbid hb)
  · by_cases hbid : e.request_id = b
    · exact absurd (hself d (hbid ▸ hb)) (hother a d haid ha)
    · exact hdist a b d (tracked_step_other_some s e a d haid ha)
        (tracked_step_other_some s e b d hbid hb)

/-- An infobar removed by the tab keeps the helper consistent with its tab. -/
theorem WF_RemoveInfoBar (s : State) (delegate : InfoBarDelegate) (hwf : WF s) :
    WF (RemoveInfoBar s delegate) := by
  obtain ⟨hnd, hlt, htr⟩ := hwf
  refine ⟨hnd.erase delegate, ?_, ?_⟩
  · intro d hd
    exact hlt d (List.mem_of_mem_erase hd)
  · intro id d hd
    obtain ⟨hbefore, hne⟩ := tracked_Notify_some _ _ id d hd
    exact (List.mem_erase_of_ne hne).mpr (htr id d hbefore)

/-- An infobar replaced by another client of the tab keeps the helper consistent with its
tab. -/
theorem WF_InfoBarReplaced (s : State) (old_delegate : InfoBarDelegate)
    (object : InfoBarDelegateObject) (hwf : WF s) :
    WF (tab_step s (TabEvent.InfoBarReplaced old_delegate object)) := by
  obtain ⟨hnd, hlt, htr⟩ := hwf
  have hfresh : s.objects.length ∉ s.infobars_ := fun h => Nat.lt_irrefl _ (hlt _ h)
  refine ⟨nodup_replace_delegate _ _ _ hnd hfresh, ?_, ?_⟩
  · intro d hd
    have hlen : (s.objects ++ [object]).length = s.objects.length + 1 := by simp
    rcases mem_of_mem_replace_delegate _ _ _ _ hd with h | h
    · rw [h]
      exact hlen ▸ Nat.lt_succ_self _
    · exact hlen ▸ Nat.lt_succ_of_lt (hlt d h)
  · intro id d hd
    obtain ⟨hbefore, hne⟩ := tracked_Notify_some _ _ id d hd
    exact mem_replace_delegate_of_ne _ _ _ _ (htr id d hbefore) hne

/-- An infobar added by another client of the tab keeps the helper consistent with its
tab. -/
theorem WF_InfoBarAdded (s : State) (object : InfoBarDelegateObject) (hwf : WF s) :
    WF (tab_step s (TabEvent.InfoBarAdded object)) := by
  obtain ⟨hnd, hlt, htr⟩ := hwf
  have hfresh : s.objects.length ∉ s.infobars_ := fun h => Nat.lt_irrefl _ (hlt _ h)
  refine ⟨?_, ?_, ?_⟩
  · refine List.nodup_append.mpr ⟨hnd, List.nodup_singleton _, ?_⟩
    intro x hx hx1
    rw [List.mem_singleton] at hx1
    exact hfresh (hx1 ▸ hx)
  · intro d hd
    have hlen : (s.objects ++ [object]).length = s.objects.length + 1 := by simp
    rcases List.mem_append.mp hd with h | h
    · exact hlen ▸ Nat.lt_succ_of_lt (hlt d h)
    · rw [List.mem_singleton.mp h]
      exact hlen ▸ Nat.lt_succ_self _
  · intro id d hd
    exact List.mem_append_left _ (htr id d hd)

/-- Every event of the tab keeps the helper consistent with its tab. -/
theorem WF_tab_step (s : State) (e : TabEvent) (hwf : WF s) : WF (tab_step s e) := by
  cases e with
  | helper event => exact WF_step s event hwf
  | InfoBarAdded object => exact WF_InfoBarAdded s object hwf
  | InfoBarRemoved delegate => exact WF_RemoveInfoBar s delegate hwf
  | InfoBarReplaced old_delegate object => exact WF_InfoBarReplaced s old_delegate object hwf

/-- Every event of the tab keeps the tracked infobars distinct. -/
theorem distinct_tab_step (s : State) (e : TabEvent) (hwf : WF s)
    (hdist : distinct_tracked s) : distinct_tracked (tab_step s e) := by
  cases e with
  | helper event => exact distinct_step s event hwf hdist
  | InfoBarAdded object => exact fun a b d ha hb => hdist a b d ha hb
  | InfoBarRemoved delegate =>
    intro a b d ha hb
    exact hdist a b d (tracked_Notify_some _ _ a d ha).1 (tracked_Notify_some _ _ b d hb).1
  | InfoBarReplaced old_delegate object =>
    intro a b d ha hb
    exact hdist a b d (tracked_Notify_some _ _ a d ha).1 (tracked_Notify_some _ _ b d hb).1

/-- Every state reached from a consistent state with distinct tracked infobars is such a
state. -/
theorem inv_tab_run (events : List TabEvent) (s : State) (hwf : WF s)
    (hdist : distinct_tracked s) :
    WF (tab_run s events) ∧ distinct_tracked (tab_run s events) := by
  induction events generalizing s with
  | nil => exact ⟨hwf, hdist⟩
  | cons e es ih => exact ih (tab_step s e) (WF_tab_step s e hwf) (distinct_tab_step s e hwf hdist)

/-- A new helper tracks no infobar. -/
theorem distinct_initial : distinct_tracked initial := by
  intro a b d ha
  simp [tracked, initial] at ha

/-- The run of a sequence of events of the tab extended by one event. -/
theorem tab_run_append (s : State) (events : List TabEvent) (e : TabEvent) :
    tab_run s (events ++ [e]) = tab_step (tab_run s events) e := by
  simp [tab_run, List.foldl_append]

/-! ## Claims on Finished, Observe and the other requests -/

/-- C11: `OnAddClientCertificateFinished` is idempotent: for every state of the helper and
every request id, calling it twice in a row, with the same handler or with another handler of
the same request id, gives the same map, and the same state as a whole, as calling it once. -/
theorem C11_finished_is_idempotent (s : State) (handler : SSLAddCertHandler) :
    OnAddClientCertificateFinished (OnAddClientCertificateFinished s handler) handler =
      OnAddClientCertificateFinished s handler ∧
    (∀ again : SSLAddCertHandler,
      again.network_request_id = handler.network_request_id →
      OnAddClientCertificateFinished (OnAddClientCertificateFinished s handler) again =
        OnAddClientCertificateFinished s handler) := by
  have key : ∀ again : SSLAddCertHandler,
      again.network_request_id = handler.network_request_id →
      OnAddClientCertificateFinished (OnAddClientCertificateFinished s handler) again =
        OnAddClientCertificateFinished s handler := by
    intro again hid
    cases s with
    | mk objects infobars calls table =>
      simp only [OnAddClientCertificateFinished, State.mk.injEq, true_and, hid]
      funext id
      by_cases h : id = handler.network_request_id
      · simp [h]
      · simp [h]
  exact ⟨key handler rfl, key⟩

/-- C11 on a helper with an entry for request 1: a second Finished, delivered with another
handler of request 1, changes nothing. -/
theorem C11_finished_is_idempotent_witness :
    OnAddClientCertificateFinished
        (OnAddClientCertificateFinished
          (step initial (Event.OnAddClientCertificateSuccess handler_one)) handler_one)
        { network_request_id := 1, cert := { handle := 9 } } =
      OnAddClientCertificateFinished
        (step initial (Event.OnAddClientCertificateSuccess handler_one)) handler_one :=
  (C11_finished_is_idempotent (step initial (Event.OnAddClientCertificateSuccess handler_one))
    handler_one).2 { network_request_id := 1, cert := { handle := 9 } } rfl

/-- C15: in every state reached from a new helper by a sequence of events of the helper (whose
notification handlers call `ShowInfoBar`) and of infobars added, removed or replaced on the
tab, with the notifications the tab sends, the infobar a request state tracks is NULL or is
displayed in the tab; right after the tab removed an infobar no state tracks it and it is
not displayed, and right after the tab replaced an infobar no state tracks the old one. -/
theorem C15_tracked_infobar_is_displayed (events : List TabEvent) (id : Int) :
    (tracked (tab_run initial events) id = none ∨
      ∃ d : InfoBarDelegate, tracked (tab_run initial events) id = some d ∧
        d ∈ (tab_run initial events).infobars_) ∧
    (∀ removed : InfoBarDelegate,
      tracked (tab_run initial (events ++ [TabEvent.InfoBarRemoved removed])) id ≠
        some removed ∧
      removed ∉ (tab_run initial (events ++ [TabEvent.InfoBarRemoved removed])).infobars_) ∧
    (∀ (old_delegate : InfoBarDelegate) (object : InfoBarDelegateObject),
      tracked (tab_run initial (events ++ [TabEvent.InfoBarReplaced old_delegate object])) id ≠
        some old_delegate) := by
  obtain ⟨hwf, _⟩ := inv_tab_run events initial WF_initial distinct_initial
  refine ⟨?_, ?_, ?_⟩
  · cases ht : tracked (tab_run initial events) id with
    | none => exact Or.inl rfl
    | some d => exact Or.inr ⟨d, rfl, hwf.2.2 id d ht⟩
  · intro removed
    rw [tab_run_append]
    constructor
    · intro htr
      exact (tracked_Notify_some _ _ id removed htr).2 rfl
    · intro hmem
      have hmem1 : removed ∈ (tab_run initial events).infobars_.erase removed := hmem
      exact (List.Nodup.mem_erase_iff hwf.1).mp hmem1 |>.1 rfl
  · intro old_delegate object
    rw [tab_run_append]
    intro htr
    exact (tracked_Notify_some _ _ id old_delegate htr).2 rfl

/-- C16: for every `SSLAddCertData` state and every INFOBAR_REMOVED or INFOBAR_REPLACED
notification, `Observe` sets the tracked infobar to NULL when the removed delegate (or the old
one of the replacement) is the tracked one, and otherwise leaves the state as it is; so a
notification about another infobar does not clear it. -/
theorem C16_Observe_clears_only_its_infobar (self : SSLAddCertData)
    (notification : Notification) :
    (self.infobar_delegate_ = some notification.first →
      (self.Observe notification).infobar_delegate_ = none) ∧
    (self.infobar_delegate_ ≠ some notification.first →
      self.Observe notification = self) := by
  rw [Observe_eq]
  constructor
  · intro heq
    simp [heq]
  · intro hne
    simp [hne]

/-- C16 on a state that tracks infobar 3: the removal of infobar 4 leaves it as it is. -/
theorem C16_Observe_clears_only_its_infobar_witness :
    SSLAddCertData.Observe { infobar_delegate_ := some 3 }
        (Notification.NOTIFICATION_TAB_CONTENTS_INFOBAR_REMOVED 4) =
      { infobar_delegate_ := some 3 } :=
  (C16_Observe_clears_only_its_infobar { infobar_delegate_ := some 3 }
    (Notification.NOTIFICATION_TAB_CONTENTS_INFOBAR_REMOVED 4)).2 (by decide)

/-- C17: in every state reached from a new helper by events of the helper and of the tab, for
every event of the helper (a verify error, add success, add error or Finished) for a request id
and every other request id b, the event leaves the slot of b in the map as it is: whether the
map has an entry for b and the infobar the state of b tracks do not change. -/
theorem C17_other_requests_are_untouched (events : List TabEvent) (e : Event) (b : Int)
    (hne : e.request_id ≠ b) :
    (step (tab_run initial events) e).request_id_to_add_cert_data_ b =
      (tab_run initial events).request_id_to_add_cert_data_ b ∧
    has_entry (step (tab_run initial events) e) b = has_entry (tab_run initial events) b ∧
    tracked (step (tab_run initial events) e) b = tracked (tab_run initial events) b := by
  obtain ⟨_, hdist⟩ := inv_tab_run events initial WF_initial distinct_initial
  have hslot := slot_step_other (tab_run initial events) e b hdist hne
  refine ⟨hslot, ?_, ?_⟩
  · simp only [has_entry, hslot]
  · simp only [tracked, hslot]

/-- C17 after add successes for requests 1 and 2: an add error for request 1 replaces the
infobar of request 1 and the state of request 2 still tracks infobar 1. -/
theorem C17_other_requests_are_untouched_witness :
    tracked (step (tab_run initial
        [TabEvent.helper (Event.OnAddClientCertificateSuccess handler_one),
          TabEvent.helper (Event.OnAddClientCertificateSuccess handler_two)])
        (Event.OnAddClientCertificateError handler_one (-3))) 2 = some 1 :=
  (C17_other_requests_are_untouched
    [TabEvent.helper (Event.OnAddClientCertificateSuccess handler_one),
      TabEvent.helper (Event.OnAddClientCertificateSuccess handler_two)]
    (Event.OnAddClientCertificateError handler_one (-3)) 2 (by decide)).2.2

end SSLHelper

namespace GoogleUpdateSettings

/-! ## Claims on GetChromeChannel -/

/-- C12: for every registry, whether the 'ap' field can be read or not and whatever it holds,
the channel `GetChromeChannel` writes is one of "", "unknown", "dev" and "beta"; it is
"unknown" with the result `false` exactly when the field cannot be read. -/
theorem C12_channel_is_one_of_four (env : Env) :
    ((GetChromeChannel env).2 = "" ∨ (GetChromeChannel env).2 = "unknown" ∨
      (GetChromeChannel env).2 = "dev" ∨ (GetChromeChannel env).2 = "beta") ∧
    ((GetChromeChannel env).1 = false ↔ ReadGoogleUpdateStrKey env env.kRegApField = none) ∧
    ((GetChromeChannel env).1 = false → (GetChromeChannel env).2 = "unknown") := by
  unfold GetChromeChannel
  cases hread : ReadGoogleUpdateStrKey env env.kRegApField with
  | none => simp
  | some update_branch =>
    by_cases hbeta : find update_branch "-beta" = none
    · by_cases hdev : find update_branch "-dev" = none
      · by_cases hempty : update_branch.isEmpty = true
        · simp [hbeta, hdev, hempty]
        · simp [hbeta, hdev, hempty]
      · simp [hbeta, hdev]
    · simp [hbeta]

/-- C12 on a registry without the field: "unknown" is written. -/
theorem C12_channel_is_one_of_four_witness :
    (GetChromeChannel { env_with_ap "" with ReadValue := fun _ _ _ => none }).2 = "unknown" :=
  (C12_channel_is_one_of_four { env_with_ap "" with ReadValue := fun _ _ _ => none }).2.2 rfl

/-- What the code writes for a value that is read and contains neither "-beta" nor "-dev":
the empty string for the empty value and "unknown" for every other one. -/
theorem GetChromeChannel_of_unparsed (env : Env) (update_branch : String)
    (hread : ReadGoogleUpdateStrKey env env.kRegApField = some update_branch)
    (hbeta : find update_branch "-beta" = none) (hdev : find update_branch "-dev" = none) :
    GetChromeChannel env = (true, if update_branch.isEmpty then "" else "unknown") := by
  unfold GetChromeChannel
  by_cases hempty : update_branch.isEmpty = true
  · simp [hread, hbeta, hdev, hempty]
  · simp [hread, hbeta, hdev, hempty]

/-- C13 fails on the code: the 'ap' value "2.0-stable" is read, contains neither "-beta" nor
"-dev", and the channel written is "unknown", not the empty string. -/
theorem C13_unparsed_ap_gives_unknown :
    ReadGoogleUpdateStrKey (env_with_ap "2.0-stable") (env_with_ap "2.0-stable").kRegApField =
      some "2.0-stable" ∧
    find "2.0-stable" "-beta" = none ∧
    find "2.0-stable" "-dev" = none ∧
    GetChromeChannel (env_with_ap "2.0-stable") = (true, "unknown") := by
  decide

end GoogleUpdateSettings

namespace BalloonViewAsh

/-! ## Claims on the image download -/

/-- What the code does with a completed download: the callback is run exactly when there is
a bitmap, once and with the first one, whatever the errored flag. -/
theorem Downloaded_eq (download_id : Int) (image_url : String) (errored : Bool)
    (requested_size : Int) (bitmaps : List SkBitmap) :
    ImageDownload.Downloaded download_id image_url errored requested_size bitmaps =
      (bitmaps.head?.map (fun bitmap => { bitmap := bitmap })).toList := by
  cases bitmaps <;> rfl

/-- C14 fails on the code: a download delivered with the errored flag set and one bitmap runs
the setter callback, with that bitmap. -/
theorem C14_errored_download_runs_callback :
    ImageDownload.Downloaded 1 "http://example.com/icon.png" true 64 [{ handle := 7 }] =
      [{ bitmap := { handle := 7 } }] := by
  decide

end BalloonViewAsh
